import Mathlib

/-!
Verification development for the traffic-enforcement service ("Speed Daemon",
src/flock/src/main.rs). The Rust program is shallowly embedded: machine
integers become Nat with explicit `% 2 ^ w` where wrap-around matters
(release-build semantics), fallible reads return an explicit outcome type,
and the f64 speed computation is modelled bit-exactly: each IEEE-754 binary64
operation is the correctly rounded (round-to-nearest, ties-to-even) value of
its exact rational result, computed here over Nat mantissa/exponent pairs,
and the Rust `as u16` cast on the non-negative result truncates toward zero
and saturates at 65535.
-/

namespace Flock

/-- Mirrors Rust `enum ClientType { Camera, Dispatcher, Unknown }`. -/
inductive ClientType
  | Camera
  | Dispatcher
  | Unknown
deriving DecidableEq, Repr

/-- Mirrors Rust `enum ClientInfo`. The dispatcher's `TcpStream` handle is
abstracted away; delivery success is an oracle parameter of the engine model. -/
inductive ClientInfo
  | CameraInfo (road mile limit : Nat)
  | DispatcherInfo (roads : List Nat)
  | Unknown
deriving DecidableEq, Repr

/-- Mirrors Rust `struct Sighting { client_id: Uuid, plate: String, timestamp: u32 }`;
the Uuid is modelled as a Nat key. -/
structure Sighting where
  client_id : Nat
  plate : String
  timestamp : Nat
deriving DecidableEq, Repr

/-- Mirrors Rust `struct SightingDetails { road, mile, limit: u16, timestamp: u32 }`. -/
structure SightingDetails where
  road : Nat
  mile : Nat
  limit : Nat
  timestamp : Nat
deriving DecidableEq, Repr

/-- Mirrors Rust `struct Ticket`. -/
structure Ticket where
  plate : String
  road : Nat
  mile1 : Nat
  timestamp1 : Nat
  mile2 : Nat
  timestamp2 : Nat
  speed : Nat
deriving DecidableEq, Repr

/-- The shared state `FlockState { client_registry: HashMap<Uuid,(ClientType,ClientInfo)>,
traffic_log: Vec<Sighting> }`. The HashMap is modelled as an association list with
shadowing insert; all observations go through `regLookup`. -/
structure FlockState where
  client_registry : List (Nat × ClientType × ClientInfo)
  traffic_log : List Sighting
deriving Repr

/-- `HashMap::get`, first-match lookup. -/
def regLookup : List (Nat × ClientType × ClientInfo) → Nat → Option (ClientType × ClientInfo)
  | [], _ => none
  | e :: r, k => if e.1 = k then some e.2 else regLookup r k

/-- `HashMap::insert` (replaces the previous binding, observationally). -/
def regInsert (r : List (Nat × ClientType × ClientInfo)) (k : Nat)
    (v : ClientType × ClientInfo) : List (Nat × ClientType × ClientInfo) :=
  (k, v) :: r

/-- `HashMap::remove`. -/
def regRemove (r : List (Nat × ClientType × ClientInfo)) (k : Nat) :
    List (Nat × ClientType × ClientInfo) :=
  r.filter (fun e => decide (e.1 ≠ k))

/-- A UTF-8 continuation byte, `0x80 ..= 0xBF`. -/
def utf8Cont (b : Nat) : Bool :=
  decide (0x80 ≤ b) && decide (b ≤ 0xBF)

/-- UTF-8 validity of a byte sequence, as checked by Rust `String::from_utf8`
(RFC 3629: overlong encodings, surrogates and values above U+10FFFF rejected). -/
def utf8Valid : List Nat → Bool
  | [] => true
  | b :: rest =>
    if b ≤ 0x7F then utf8Valid rest
    else if 0xC2 ≤ b && b ≤ 0xDF then
      match rest with
      | c1 :: r => utf8Cont c1 && utf8Valid r
      | [] => false
    else if b = 0xE0 then
      match rest with
      | c1 :: c2 :: r => (decide (0xA0 ≤ c1) && decide (c1 ≤ 0xBF)) && utf8Cont c2 && utf8Valid r
      | _ => false
    else if (0xE1 ≤ b && b ≤ 0xEC) || b = 0xEE || b = 0xEF then
      match rest with
      | c1 :: c2 :: r => utf8Cont c1 && utf8Cont c2 && utf8Valid r
      | _ => false
    else if b = 0xED then
      match rest with
      | c1 :: c2 :: r => (decide (0x80 ≤ c1) && decide (c1 ≤ 0x9F)) && utf8Cont c2 && utf8Valid r
      | _ => false
    else if b = 0xF0 then
      match rest with
      | c1 :: c2 :: c3 :: r =>
        (decide (0x90 ≤ c1) && decide (c1 ≤ 0xBF)) && utf8Cont c2 && utf8Cont c3 && utf8Valid r
      | _ => false
    else if 0xF1 ≤ b && b ≤ 0xF3 then
      match rest with
      | c1 :: c2 :: c3 :: r => utf8Cont c1 && utf8Cont c2 && utf8Cont c3 && utf8Valid r
      | _ => false
    else if b = 0xF4 then
      match rest with
      | c1 :: c2 :: c3 :: r =>
        (decide (0x80 ≤ c1) && decide (c1 ≤ 0x8F)) && utf8Cont c2 && utf8Cont c3 && utf8Valid r
      | _ => false
    else false

/-- Wire-level inbound message, with the plate kept as raw bytes. -/
inductive WireMessage
  | Plate (plate : List Nat) (timestamp : Nat)
  | WantHeartbeat (interval : Nat)
  | IAmCamera (road mile limit : Nat)
  | IAmDispatcher (roads : List Nat)
deriving DecidableEq, Repr

/-- `read_exact` into a buffer of n bytes: `none` models `ErrorKind::UnexpectedEof`. -/
def takeExact : Nat → List Nat → Option (List Nat × List Nat)
  | 0, l => some ([], l)
  | _ + 1, [] => none
  | n + 1, b :: l =>
    match takeExact n l with
    | some (xs, r) => some (b :: xs, r)
    | none => none

/-- Big-endian interpretation of a byte list (`u16::from_be_bytes`, `u32::from_be_bytes`). -/
def beNat (bytes : List Nat) : Nat :=
  bytes.foldl (fun a b => a * 256 + b) 0

/-- Decode consecutive big-endian u16 pairs (`chunks_exact(2)` in the dispatcher roads). -/
def u16Pairs : List Nat → List Nat
  | a :: b :: r => (a * 256 + b) :: u16Pairs r
  | _ => []

/-- Outcome of one `read_message` call on the remaining input bytes. -/
inductive ReadOutcome
  | eofClean
  | message (m : WireMessage) (rest : List Nat)
  | readErr
  | invalidData
  | panicked
deriving DecidableEq, Repr

/-- Mirrors `read_message`: zero bytes at the tag boundary is `Ok(None)` (eofClean);
a truncated payload makes `read_exact` fail with `UnexpectedEof` (readErr); an
unrecognized tag is `Err(InvalidData)`; a plate whose bytes are not valid UTF-8
hits `String::from_utf8(..).expect(..)`, which panics (panicked). -/
def read_message (input : List Nat) : ReadOutcome :=
  match input with
  | [] => ReadOutcome.eofClean
  | tag :: rest =>
    if tag = 0x20 then
      match takeExact 1 rest with
      | none => ReadOutcome.readErr
      | some (lenB, r1) =>
        match takeExact (beNat lenB) r1 with
        | none => ReadOutcome.readErr
        | some (plate, r2) =>
          match takeExact 4 r2 with
          | none => ReadOutcome.readErr
          | some (tsB, r3) =>
            if utf8Valid plate then
              ReadOutcome.message (WireMessage.Plate plate (beNat tsB)) r3
            else ReadOutcome.panicked
    else if tag = 0x40 then
      match takeExact 4 rest with
      | none => ReadOutcome.readErr
      | some (iB, r1) => ReadOutcome.message (WireMessage.WantHeartbeat (beNat iB)) r1
    else if tag = 0x80 then
      match takeExact 2 rest with
      | none => ReadOutcome.readErr
      | some (roadB, r1) =>
        match takeExact 2 r1 with
        | none => ReadOutcome.readErr
        | some (mileB, r2) =>
          match takeExact 2 r2 with
          | none => ReadOutcome.readErr
          | some (limitB, r3) =>
            ReadOutcome.message
              (WireMessage.IAmCamera (beNat roadB) (beNat mileB) (beNat limitB)) r3
    else if tag = 0x81 then
      match takeExact 1 rest with
      | none => ReadOutcome.readErr
      | some (nB, r1) =>
        match takeExact (2 * beNat nB) r1 with
        | none => ReadOutcome.readErr
        | some (roadsB, r2) => ReadOutcome.message (WireMessage.IAmDispatcher (u16Pairs roadsB)) r2
    else ReadOutcome.invalidData

/-- What the `handle_client` read loop does with one `read_message` outcome:
`Ok(None)` and non-InvalidData errors close the connection silently, only
`InvalidData` (the unknown-tag case) sends an Error frame before closing, and
the UTF-8 `expect` panic crashes the session handler thread. -/
inductive SessionSignal
  | closedSilently
  | closedWithError
  | panicked
  | handled (m : WireMessage) (rest : List Nat)
deriving DecidableEq, Repr

/-- One step of the `handle_client` loop, at the frame boundary. -/
def session_step (input : List Nat) : SessionSignal :=
  match read_message input with
  | ReadOutcome.eofClean => SessionSignal.closedSilently
  | ReadOutcome.readErr => SessionSignal.closedSilently
  | ReadOutcome.invalidData => SessionSignal.closedWithError
  | ReadOutcome.panicked => SessionSignal.panicked
  | ReadOutcome.message m r => SessionSignal.handled m r

/-- Decoded inbound message as consumed by `handle_message` (plate as String). -/
inductive InboundMessage
  | Plate (plate : String) (timestamp : Nat)
  | WantHeartbeat (interval : Nat)
  | IAmCamera (road mile limit : Nat)
  | IAmDispatcher (roads : List Nat)
deriving DecidableEq, Repr

/-- Messages written to this connection's outbound stream. -/
inductive OutMsg
  | errorMsg (s : String)
  | ticketOut (t : Ticket)
  | heartbeatOut
deriving DecidableEq, Repr

/-- Result of `handle_message`: the updated shared state, the messages written to
this client, whether the result was `Ok(())` (the loop continues) or `Err`
(the loop breaks and the connection closes), and the interval of a heartbeat
emitter thread spawned by this call, if any. -/
structure HandleResult where
  state : FlockState
  sent : List OutMsg
  ok : Bool
  spawnedHeartbeat : Option Nat

/-- Mirrors `handle_message`. `none` models the `.expect` panics on a registry
entry that is missing for this connection (IAmCamera and Plate look it up with
`.expect`; IAmDispatcher uses `if let` and silently returns `Ok` when absent). -/
def handle_message (fs : FlockState) (cid : Nat) (m : InboundMessage) : Option HandleResult :=
  match m with
  | InboundMessage.WantHeartbeat interval =>
    if interval = 0 then some ⟨fs, [], true, none⟩
    else some ⟨fs, [], true, some interval⟩
  | InboundMessage.IAmCamera road mile limit =>
    match regLookup fs.client_registry cid with
    | none => none
    | some (ct, _) =>
      match ct with
      | ClientType.Unknown =>
        let reg := regInsert fs.client_registry cid
          (ClientType.Camera, ClientInfo.CameraInfo road mile limit)
        some ⟨{ fs with client_registry := reg }, [], true, none⟩
      | _ => some ⟨fs, [OutMsg.errorMsg "Client already identified"], false, none⟩
  | InboundMessage.IAmDispatcher roads =>
    match regLookup fs.client_registry cid with
    | none => some ⟨fs, [], true, none⟩
    | some (ct, _) =>
      match ct with
      | ClientType.Unknown =>
        let reg := regInsert fs.client_registry cid
          (ClientType.Dispatcher, ClientInfo.DispatcherInfo roads)
        some ⟨{ fs with client_registry := reg }, [], true, none⟩
      | _ => some ⟨fs, [OutMsg.errorMsg "Client already identified"], false, none⟩
  | InboundMessage.Plate plate timestamp =>
    match regLookup fs.client_registry cid with
    | none => none
    | some (ct, _) =>
      match ct with
      | ClientType.Camera =>
        let log := fs.traffic_log ++ [⟨cid, plate, timestamp⟩]
        some ⟨{ fs with traffic_log := log }, [], true, none⟩
      | _ => some ⟨fs, [OutMsg.errorMsg "Only cameras can send plates"], false, none⟩

/-- Mirrors the disconnect epilogue of `handle_client`: the registry entry is
removed unless its final role is Camera. -/
def disconnect_cleanup (fs : FlockState) (cid : Nat) : FlockState :=
  let shouldRemove :=
    match regLookup fs.client_registry cid with
    | some (ClientType.Camera, _) => false
    | _ => true
  if shouldRemove then
    { fs with client_registry := regRemove fs.client_registry cid }
  else fs

/-- The sort key of `sightings.sort_by_key(|s| s.timestamp)`. -/
def tsLE (a b : SightingDetails) : Prop :=
  a.timestamp ≤ b.timestamp

instance : DecidableRel tsLE :=
  fun a b => Nat.decLe a.timestamp b.timestamp

instance : IsTotal SightingDetails tsLE :=
  ⟨fun a b => Nat.le_total a.timestamp b.timestamp⟩

instance : IsTrans SightingDetails tsLE :=
  ⟨fun _ _ _ hab hbc => Nat.le_trans hab hbc⟩

/-- `sightings.sort_by_key(|s| s.timestamp)` (a stable sort; insertion sort with a
total preorder is stable, matching Rust's stable `sort_by_key`). -/
def sortByTimestamp (l : List SightingDetails) : List SightingDetails :=
  List.insertionSort tsLE l

/-- The per-plate vector built by the grouping pass of `check_traffic_log`: the
log entries for plate `p` whose camera identity resolves, in the registry, to a
`(ClientType::Camera, ClientInfo::CameraInfo ..)` entry, in log order. -/
def detailsFor (reg : List (Nat × ClientType × ClientInfo)) (log : List Sighting)
    (p : String) : List SightingDetails :=
  log.filterMap (fun s =>
    if s.plate = p then
      match regLookup reg s.client_id with
      | some (ClientType.Camera, ClientInfo.CameraInfo road mile limit) =>
        some ⟨road, mile, limit, s.timestamp⟩
      | _ => none
    else none)

/-- The plates of the grouping HashMap. Its iteration order is unspecified in the
source; the model fixes first-appearance order, and every claim below is
order-insensitive (membership in the candidate list). -/
def platesOf (log : List Sighting) : List String :=
  (log.map (fun s => s.plate)).dedup

/-- Round the value `q + r/den` (with `0 ≤ r < den`) to the nearest integer,
ties to even — the mantissa-rounding step of IEEE-754 round-to-nearest. -/
def roundMantissa (q r den : Nat) : Nat :=
  if den < 2 * r then q + 1
  else if 2 * r < den then q
  else if q % 2 = 0 then q else q + 1

/-- Double the numerator until the integer quotient by `q` reaches 2^52,
returning the shift count and the shifted numerator. The explicit fuel bounds
the recursion; 4096 is far beyond the at most ~85 doublings any value reached
from wire-representable sightings (u16 distance, u32 elapsed seconds) needs. -/
def shiftUp (q : Nat) : Nat → Nat → Nat × Nat
  | p, 0 => (0, p)
  | p, fuel + 1 =>
    if p / q < 2 ^ 52 then
      let r := shiftUp q (p * 2) fuel
      (r.1 + 1, r.2)
    else (0, p)

/-- Double the denominator until the integer quotient of `p` by it drops below
2^53, returning the shift count and the shifted denominator. -/
def shiftDown (p : Nat) : Nat → Nat → Nat × Nat
  | q, 0 => (0, q)
  | q, fuel + 1 =>
    if 2 ^ 53 ≤ p / q then
      let r := shiftDown p (q * 2) fuel
      (r.1 + 1, r.2)
    else (0, q)

/-- The IEEE-754 binary64 value nearest to the positive rational p/q
(round-to-nearest, ties-to-even), returned exactly as a rational pair with a
power-of-two denominator: the 53-bit mantissa is obtained by shifting p/q into
[2^52, 2^53) and rounding the remainder. Subnormal and overflow handling is
omitted because every value reached from wire-representable sightings lies
strictly inside the normal range (between about 2^-32 and 2^35). Validated
bit-exactly against binary64 arithmetic on exhaustive and randomized sweeps of
the wire domain. -/
def f64NearestRat (p q : Nat) : Nat × Nat :=
  if p / q < 2 ^ 52 then
    let s := shiftUp q p 4096
    (roundMantissa (s.2 / q) (s.2 % q) q, 2 ^ s.1)
  else
    let s := shiftDown p q 4096
    (roundMantissa (p / s.2) (p % s.2) s.2 * 2 ^ s.1, 1)

/-- The f64 speed chain of `check_traffic_log`, bit-exactly:
`speed_mpg = (distance as f64 / time_delta as f64) * 3600.0` and
`speed_100x = (speed_mpg * 100.0) as u16`. Both integer-to-f64 conversions are
exact (the inputs are below 2^53); the division and each multiplication round
their exact rational result to the nearest binary64 (ties to even); the final
`as u16` cast truncates toward zero and saturates at 65535. -/
def speed_100x (distance time_delta : Nat) : Nat :=
  let q := f64NearestRat distance time_delta
  let m := f64NearestRat (q.1 * 3600) q.2
  let c := f64NearestRat (m.1 * 100) m.2
  min 65535 (c.1 / c.2)

/-- One `windows(2)` pair of the sorted per-plate sightings, turned into a
candidate `Ticket` or skipped, mirroring the loop body of `check_traffic_log`:
different roads are skipped; `time_delta = s2.timestamp - s1.timestamp` (u32
subtraction, applied to a timestamp-sorted pair, so it does not underflow —
proved below), `distance = s1.mile.abs_diff(s2.mile)`; zero distance or zero
elapsed time is skipped; the speed is the bit-exact f64 chain `speed_100x`;
`limit_100x = s1.limit * 100` is u16 arithmetic, hence the explicit
`% 65536` wrap. -/
def pair_ticket (plate : String) (s1 s2 : SightingDetails) : Option Ticket :=
  if s1.road ≠ s2.road then none
  else if (max s1.mile s2.mile - min s1.mile s2.mile) = 0 ∨ (s2.timestamp - s1.timestamp) = 0 then
    none
  else if s1.limit * 100 % 65536 <
      speed_100x (max s1.mile s2.mile - min s1.mile s2.mile) (s2.timestamp - s1.timestamp) then
    some ⟨plate, s1.road, s1.mile, s1.timestamp, s2.mile, s2.timestamp,
          speed_100x (max s1.mile s2.mile - min s1.mile s2.mile) (s2.timestamp - s1.timestamp)⟩
  else none

/-- The consecutive pairs of a list, `windows(2)`. -/
def consecPairs (l : List SightingDetails) : List (SightingDetails × SightingDetails) :=
  l.zip l.tail

/-- The candidates contributed by one plate: every consecutive pair of its
timestamp-sorted sightings, filtered through `pair_ticket`. -/
def candidates_for (plate : String) (sorted : List SightingDetails) : List Ticket :=
  (consecPairs sorted).filterMap (fun pr => pair_ticket plate pr.1 pr.2)

/-- Mirrors `check_traffic_log`: group the log by plate (camera-resolvable
sightings only), sort each group by timestamp, scan consecutive pairs. -/
def check_traffic_log (reg : List (Nat × ClientType × ClientInfo))
    (log : List Sighting) : List Ticket :=
  ((platesOf log).map (fun p => candidates_for p (sortByTimestamp (detailsFor reg log p)))).flatten

/-- The dedup state of the delivery loop in `main`:
`tickets: HashSet<Ticket>` and `issued_days: HashSet<(String, u32)>`. -/
structure EngineState where
  tickets : List Ticket
  issued_days : List (String × Nat)
deriving Repr

/-- `t.timestamp1 / 86400`. -/
def day1 (t : Ticket) : Nat :=
  t.timestamp1 / 86400

/-- `t.timestamp2 / 86400`. -/
def day2 (t : Ticket) : Nat :=
  t.timestamp2 / 86400

/-- The per-day dedup test of the delivery loop:
`issued_days.contains(&(plate, day1)) || issued_days.contains(&(plate, day2))`. -/
def day_blocked (es : EngineState) (t : Ticket) : Bool :=
  decide ((t.plate, day1 t) ∈ es.issued_days) || decide ((t.plate, day2 t) ∈ es.issued_days)

/-- The commit performed after a successful write: insert the ticket into the
issued set and mark both of its days. -/
def deliver_mark (es : EngineState) (t : Ticket) : EngineState :=
  { tickets := t :: es.tickets,
    issued_days := (t.plate, day1 t) :: (t.plate, day2 t) :: es.issued_days }

/-- The dispatcher lookup of the delivery loop: some registry value whose
ClientInfo is `DispatcherInfo { roads, .. }` with `roads.contains(&road)`
(the ClientType component is not inspected by the source). -/
def has_dispatcher (reg : List (Nat × ClientType × ClientInfo)) (road : Nat) : Bool :=
  reg.any (fun e =>
    match e.2.2 with
    | ClientInfo.DispatcherInfo roads => roads.contains road
    | _ => false)

/-- One iteration of the delivery loop body for candidate `t`: skip if already
issued; skip if either day is marked for the plate; skip if no dispatcher
covers the road; otherwise attempt the write (outcome given by the oracle `w`,
abstracting `Ticket::write` on the cloned stream) and commit only on success.
Returns the new state and the list of tickets delivered (empty or `[t]`). -/
def process_candidate (reg : List (Nat × ClientType × ClientInfo)) (w : Ticket → Bool)
    (es : EngineState) (t : Ticket) : EngineState × List Ticket :=
  if t ∈ es.tickets then (es, [])
  else if day_blocked es t then (es, [])
  else if has_dispatcher reg t.road then
    if w t then (deliver_mark es t, [t]) else (es, [])
  else (es, [])

/-- Fold the delivery loop body over one cycle's candidate list. -/
def run_candidates (reg : List (Nat × ClientType × ClientInfo)) (w : Ticket → Bool)
    (es : EngineState) : List Ticket → EngineState × List Ticket
  | [] => (es, [])
  | t :: ts =>
    let r1 := process_candidate reg w es t
    let r2 := run_candidates reg w r1.1 ts
    (r2.1, r1.2 ++ r2.2)

/-- The inputs of one engine cycle: the snapshot of the shared state taken under
the lock, and the write-success oracle for this cycle. -/
structure CycleInput where
  reg : List (Nat × ClientType × ClientInfo)
  log : List Sighting
  writeOk : Ticket → Bool

/-- One cycle of the background loop in `main`: recompute the candidates from
the snapshot, then run the delivery loop over them. -/
def run_cycle (c : CycleInput) (es : EngineState) : EngineState × List Ticket :=
  run_candidates c.reg c.writeOk es (check_traffic_log c.reg c.log)

/-- A finite prefix of the infinite background loop. -/
def run_cycles : List CycleInput → EngineState → EngineState × List Ticket
  | [], es => (es, [])
  | c :: cs, es =>
    let r1 := run_cycle c es
    let r2 := run_cycles cs r1.1
    (r2.1, r1.2 ++ r2.2)

/-- The heartbeat emitter thread body, `loop { let _ = write(&[0x41]); sleep }`:
the result of each write is discarded and the loop has no exit, so after `n`
iterations exactly `n` writes have been attempted, whatever the outcomes
(`w i` is the success of the write in iteration `i`). Real-time pacing
(`interval/10` seconds of sleep per iteration) is abstracted to the iteration
count. -/
def heartbeat_attempts (w : Nat → Bool) : Nat → Nat
  | 0 => 0
  | n + 1 => heartbeat_attempts w n + 1

/-- Modelled from the spec: the rounding the specification text ascribes to the
speed conversion, `round(num/den)` with half rounded up. This definition follows
the words of the claim, for comparison against the truncation the source
performs; it embeds no source code. -/
def specRound (num den : Nat) : Nat :=
  (2 * num + den) / (2 * den)

/-! Helper lemmas shared by the claim theorems. -/

/-- Inversion of the pair scan: everything a produced candidate satisfies. -/
lemma pair_ticket_inv {p : String} {s1 s2 : SightingDetails} {t : Ticket}
    (h : pair_ticket p s1 s2 = some t) :
    s1.road = s2.road ∧
    (max s1.mile s2.mile - min s1.mile s2.mile) ≠ 0 ∧
    (s2.timestamp - s1.timestamp) ≠ 0 ∧
    s1.limit * 100 % 65536 <
      speed_100x (max s1.mile s2.mile - min s1.mile s2.mile) (s2.timestamp - s1.timestamp) ∧
    t = ⟨p, s1.road, s1.mile, s1.timestamp, s2.mile, s2.timestamp,
         speed_100x (max s1.mile s2.mile - min s1.mile s2.mile) (s2.timestamp - s1.timestamp)⟩ := by
  unfold pair_ticket at h
  split_ifs at h with h1 h2 h3
  · injection h with h4
    exact ⟨not_not.mp h1, (not_or.mp h2).1, (not_or.mp h2).2, h3, h4.symm⟩

/-- A pair of sightings on different roads never produces a candidate. -/
lemma pair_ticket_ne_road {p : String} {s1 s2 : SightingDetails} (h : s1.road ≠ s2.road) :
    pair_ticket p s1 s2 = none := by
  unfold pair_ticket
  rw [if_pos h]

/-- Provenance: every ticket in the scan output arises from a consecutive pair of
the timestamp-sorted, camera-resolved sightings of its own plate. -/
lemma mem_check_traffic_log {reg : List (Nat × ClientType × ClientInfo)}
    {log : List Sighting} {t : Ticket} (h : t ∈ check_traffic_log reg log) :
    ∃ s1 s2, (s1, s2) ∈ consecPairs (sortByTimestamp (detailsFor reg log t.plate)) ∧
      pair_ticket t.plate s1 s2 = some t := by
  unfold check_traffic_log at h
  rw [List.mem_flatten] at h
  obtain ⟨l, hl, htl⟩ := h
  rw [List.mem_map] at hl
  obtain ⟨q, _, rfl⟩ := hl
  unfold candidates_for at htl
  rw [List.mem_filterMap] at htl
  obtain ⟨pr, hpr, hpt⟩ := htl
  have hplate : t.plate = q := by
    rw [(pair_ticket_inv hpt).2.2.2.2]
  refine ⟨pr.1, pr.2, ?_, ?_⟩
  · rw [hplate]
    simpa using hpr
  · rw [hplate]
    exact hpt

/-- Consecutive pairs of a pairwise-ordered list are ordered. -/
lemma pairwise_zip_tail {α : Type} {r : α → α → Prop} :
    ∀ {l : List α}, l.Pairwise r → ∀ pr ∈ l.zip l.tail, r pr.1 pr.2 := by
  intro l
  induction l with
  | nil =>
    intro _ pr hpr
    simp at hpr
  | cons a l ih =>
    intro h pr hpr
    cases l with
    | nil => simp at hpr
    | cons b m =>
      rw [List.pairwise_cons] at h
      simp only [List.tail_cons, List.zip_cons_cons] at hpr
      rcases List.mem_cons.mp hpr with hpr | hpr
      · subst hpr
        exact h.1 b (List.mem_cons_self b m)
      · exact ih h.2 pr hpr

/-- The sorted per-plate list has nondecreasing timestamps along consecutive pairs. -/
lemma sorted_pairs_le (l : List SightingDetails) :
    ∀ pr ∈ consecPairs (sortByTimestamp l), pr.1.timestamp ≤ pr.2.timestamp := by
  intro pr hpr
  have hs : List.Sorted tsLE (sortByTimestamp l) := List.sorted_insertionSort tsLE l
  exact pairwise_zip_tail hs pr hpr

/-- The delivery-loop body either leaves the state untouched and delivers
nothing, or delivers exactly its candidate, which was neither already issued
nor day-blocked, and commits it. -/
lemma process_candidate_cases (reg : List (Nat × ClientType × ClientInfo))
    (w : Ticket → Bool) (es : EngineState) (t : Ticket) :
    process_candidate reg w es t = (es, []) ∨
    (process_candidate reg w es t = (deliver_mark es t, [t]) ∧
      day_blocked es t = false ∧ t ∉ es.tickets) := by
  unfold process_candidate
  split_ifs with h1 h2 h3 h4
  · exact Or.inl rfl
  · exact Or.inl rfl
  · exact Or.inr ⟨rfl, by simpa using h2, h1⟩
  · exact Or.inl rfl
  · exact Or.inl rfl

/-- The issued-day markers only grow across one loop-body step. -/
lemma process_candidate_days_mono {reg : List (Nat × ClientType × ClientInfo)}
    {w : Ticket → Bool} {es : EngineState} {t : Ticket} {pd : String × Nat}
    (h : pd ∈ es.issued_days) :
    pd ∈ (process_candidate reg w es t).1.issued_days := by
  rcases process_candidate_cases reg w es t with hc | ⟨hc, _, _⟩ <;> rw [hc] <;>
    simp [deliver_mark, h]

/-- The issued-ticket set only grows across one loop-body step. -/
lemma process_candidate_tickets_mono {reg : List (Nat × ClientType × ClientInfo)}
    {w : Ticket → Bool} {es : EngineState} {t t' : Ticket}
    (h : t' ∈ es.tickets) :
    t' ∈ (process_candidate reg w es t).1.tickets := by
  rcases process_candidate_cases reg w es t with hc | ⟨hc, _, _⟩ <;> rw [hc] <;>
    simp [deliver_mark, h]

/-- Day markers only grow across a cycle's candidate fold. -/
lemma run_candidates_days_mono {reg : List (Nat × ClientType × ClientInfo)}
    {w : Ticket → Bool} {pd : String × Nat} :
    ∀ (cs : List Ticket) (es : EngineState), pd ∈ es.issued_days →
      pd ∈ (run_candidates reg w es cs).1.issued_days := by
  intro cs
  induction cs with
  | nil =>
    intro es h
    exact h
  | cons t ts ih =>
    intro es h
    exact ih _ (process_candidate_days_mono h)

/-- Once a (plate, day) pair is marked, no ticket delivered later in the same
fold touches that day for that plate. -/
lemma run_candidates_blocked {reg : List (Nat × ClientType × ClientInfo)}
    {w : Ticket → Bool} {p : String} {d : Nat} :
    ∀ (cs : List Ticket) (es : EngineState), (p, d) ∈ es.issued_days →
      ∀ t' ∈ (run_candidates reg w es cs).2,
        ¬(t'.plate = p ∧ (day1 t' = d ∨ day2 t' = d)) := by
  intro cs
  induction cs with
  | nil =>
    intro es _ t' ht'
    simp [run_candidates] at ht'
  | cons t ts ih =>
    intro es h t' ht'
    simp only [run_candidates] at ht'
    rcases List.mem_append.mp ht' with hmem | hmem
    · rcases process_candidate_cases reg w es t with hc | ⟨hc, hdb, _⟩
      · rw [hc] at hmem
        simp at hmem
      · rw [hc] at hmem
        have ht : t' = t := by simpa using hmem
        subst ht
        simp only [day_blocked, Bool.or_eq_false_iff, decide_eq_false_iff_not] at hdb
        rintro ⟨hp, hd | hd⟩
        · exact hdb.1 (by rw [hp, hd]; exact h)
        · exact hdb.2 (by rw [hp, hd]; exact h)
    · exact ih _ (process_candidate_days_mono h) t' hmem

/-- Day markers only grow across whole cycles. -/
lemma run_cycles_days_mono {pd : String × Nat} :
    ∀ (cs : List CycleInput) (es : EngineState), pd ∈ es.issued_days →
      pd ∈ (run_cycles cs es).1.issued_days := by
  intro cs
  induction cs with
  | nil =>
    intro es h
    exact h
  | cons c rest ih =>
    intro es h
    exact ih _ (run_candidates_days_mono _ _ h)

/-- Once a (plate, day) pair is marked, no later cycle delivers a ticket for
that plate touching that day. -/
lemma run_cycles_blocked {p : String} {d : Nat} :
    ∀ (cs : List CycleInput) (es : EngineState), (p, d) ∈ es.issued_days →
      ∀ t' ∈ (run_cycles cs es).2, ¬(t'.plate = p ∧ (day1 t' = d ∨ day2 t' = d)) := by
  intro cs
  induction cs with
  | nil =>
    intro es _ t' ht'
    simp [run_cycles] at ht'
  | cons c rest ih =>
    intro es h t' ht'
    simp only [run_cycles] at ht'
    rcases List.mem_append.mp ht' with hmem | hmem
    · exact run_candidates_blocked _ _ h t' hmem
    · exact ih _ (run_candidates_days_mono _ _ h) t' hmem

/-- Within one cycle's fold: the delivered list has no duplicates, every
delivered ticket was not already issued at the start and is issued at the end,
and the issued set only grows. -/
lemma run_candidates_nodup {reg : List (Nat × ClientType × ClientInfo)}
    {w : Ticket → Bool} :
    ∀ (cs : List Ticket) (es : EngineState),
      ((run_candidates reg w es cs).2).Nodup ∧
      (∀ t' ∈ (run_candidates reg w es cs).2,
        t' ∉ es.tickets ∧ t' ∈ (run_candidates reg w es cs).1.tickets) ∧
      (∀ t', t' ∈ es.tickets → t' ∈ (run_candidates reg w es cs).1.tickets) := by
  intro cs
  induction cs with
  | nil =>
    intro es
    refine ⟨List.nodup_nil, ?_, fun t' h => h⟩
    intro t' ht'
    simp [run_candidates] at ht'
  | cons t ts ih =>
    intro es
    rcases process_candidate_cases reg w es t with hc | ⟨hc, _, hnt⟩
    · simp only [run_candidates, hc]
      simpa using ih es
    · simp only [run_candidates, hc]
      obtain ⟨ihn, ihd, ihm⟩ := ih (deliver_mark es t)
      have htm : t ∈ (run_candidates reg w (deliver_mark es t) ts).1.tickets :=
        ihm t (by simp [deliver_mark])
      refine ⟨?_, ?_, ?_⟩
      · rw [List.singleton_append, List.nodup_cons]
        refine ⟨fun habs => ?_, ihn⟩
        exact (ihd t habs).1 (by simp [deliver_mark])
      · intro t' ht'
        rw [List.singleton_append] at ht'
        rcases List.mem_cons.mp ht' with rfl | hmem
        · exact ⟨hnt, htm⟩
        · refine ⟨fun habs => (ihd t' hmem).1 ?_, (ihd t' hmem).2⟩
          simp [deliver_mark, habs]
      · intro t' ht'
        exact ihm t' (by simp [deliver_mark, ht'])

/-- Across any finite run of cycles: no ticket is ever delivered twice, every
delivered ticket was not already issued at the start and is issued at the end,
and the issued set only grows. -/
lemma run_cycles_nodup :
    ∀ (cs : List CycleInput) (es : EngineState),
      ((run_cycles cs es).2).Nodup ∧
      (∀ t' ∈ (run_cycles cs es).2,
        t' ∉ es.tickets ∧ t' ∈ (run_cycles cs es).1.tickets) ∧
      (∀ t', t' ∈ es.tickets → t' ∈ (run_cycles cs es).1.tickets) := by
  intro cs
  induction cs with
  | nil =>
    intro es
    refine ⟨List.nodup_nil, ?_, fun t' h => h⟩
    intro t' ht'
    simp [run_cycles] at ht'
  | cons c rest ih =>
    intro es
    simp only [run_cycles]
    obtain ⟨hn1, hd1, hm1⟩ := @run_candidates_nodup c.reg c.writeOk
      (check_traffic_log c.reg c.log) es
    obtain ⟨hn2, hd2, hm2⟩ := ih (run_candidates c.reg c.writeOk es
      (check_traffic_log c.reg c.log)).1
    refine ⟨?_, ?_, ?_⟩
    · rw [List.nodup_append]
      refine ⟨hn1, hn2, ?_⟩
      intro t' ht1 ht2
      exact (hd2 t' ht2).1 ((hd1 t' ht1).2)
    · intro t' ht'
      rcases List.mem_append.mp ht' with hmem | hmem
      · exact ⟨(hd1 t' hmem).1, hm2 t' ((hd1 t' hmem).2)⟩
      · exact ⟨fun habs => (hd2 t' hmem).1 (hm1 t' habs), (hd2 t' hmem).2⟩
    · intro t' ht'
      exact hm2 t' (hm1 t' ht')

/-- Removal erases the key. -/
lemma regLookup_regRemove_self (r : List (Nat × ClientType × ClientInfo)) (k : Nat) :
    regLookup (regRemove r k) k = none := by
  induction r with
  | nil => rfl
  | cons e rest ih =>
    by_cases he : e.1 = k
    · simpa [regRemove, List.filter, he] using ih
    · simpa [regRemove, List.filter, he, regLookup] using ih

/-- Removal does not touch other keys. -/
lemma regLookup_regRemove_ne {k k' : Nat} (h : k' ≠ k)
    (r : List (Nat × ClientType × ClientInfo)) :
    regLookup (regRemove r k) k' = regLookup r k' := by
  induction r with
  | nil => rfl
  | cons e rest ih =>
    simp only [regRemove] at ih ⊢
    rw [List.filter_cons]
    by_cases he : e.1 = k
    · have hcond : (decide (e.1 ≠ k)) = false := by simp [he]
      rw [hcond]
      have hne : e.1 ≠ k' := by
        rw [he]
        exact fun habs => h habs.symm
      simp only [Bool.false_eq_true, if_false]
      rw [ih, regLookup, if_neg hne]
    · have hcond : (decide (e.1 ≠ k)) = true := by simp [he]
      rw [hcond]
      simp only [if_true]
      rw [regLookup, regLookup]
      by_cases he' : e.1 = k'
      · rw [if_pos he', if_pos he']
      · rw [if_neg he', if_neg he', ih]

/-! Concrete fixtures used by the witness and counterexample theorems. -/

/-- A registry with same-road and different-road camera pairs and a dispatcher
covering road 2 only. -/
def demoReg : List (Nat × ClientType × ClientInfo) :=
  [(1, ClientType.Camera, ClientInfo.CameraInfo 1 0 10),
   (2, ClientType.Camera, ClientInfo.CameraInfo 1 10 10),
   (3, ClientType.Camera, ClientInfo.CameraInfo 2 0 10),
   (4, ClientType.Camera, ClientInfo.CameraInfo 2 10 10),
   (5, ClientType.Dispatcher, ClientInfo.DispatcherInfo [2])]

/-- Four sightings of one plate: a fast pair on road 1, then a fast pair on
road 2, all on day 0. -/
def demoLog : List Sighting :=
  [⟨1, "A", 0⟩, ⟨2, "A", 1⟩, ⟨3, "A", 2⟩, ⟨4, "A", 3⟩]

/-- `demoReg` with a later dispatcher that also covers road 1. -/
def demoReg2 : List (Nat × ClientType × ClientInfo) :=
  demoReg ++ [(6, ClientType.Dispatcher, ClientInfo.DispatcherInfo [1])]

/-- The road-1 candidate of `demoLog`. -/
def demoT1 : Ticket :=
  ⟨"A", 1, 0, 0, 10, 1, 65535⟩

/-- The road-2 candidate of `demoLog`. -/
def demoT2 : Ticket :=
  ⟨"A", 2, 0, 2, 10, 3, 65535⟩

/-- A registry for the C1 witness: one fast same-road pair on day 1 and a
dispatcher for its road. -/
def dayReg : List (Nat × ClientType × ClientInfo) :=
  [(1, ClientType.Camera, ClientInfo.CameraInfo 1 0 10),
   (2, ClientType.Camera, ClientInfo.CameraInfo 1 10 10),
   (7, ClientType.Dispatcher, ClientInfo.DispatcherInfo [1])]

/-- Two sightings of plate A on day 1 (timestamps 86400 and 86401). -/
def dayLog : List Sighting :=
  [⟨1, "A", 86400⟩, ⟨2, "A", 86401⟩]

/-- The candidate produced from `dayLog`. -/
def dayT : Ticket :=
  ⟨"A", 1, 0, 86400, 10, 86401, 65535⟩

/-! The claim theorems. -/

/-- C1: once a (plate, day) pair is in the issued-day marker set, no ticket for
that plate whose timestamp1/86400 or timestamp2/86400 equals that day is ever
delivered by any later run of the engine, whatever snapshots, dispatcher
registries and write outcomes the cycles see — even candidates from other
sighting pairs or other roads. -/
theorem issued_day_marker_blocks_forever :
    ∀ (es : EngineState) (p : String) (d : Nat) (cycles : List CycleInput),
      (p, d) ∈ es.issued_days →
      ∀ t ∈ (run_cycles cycles es).2, t.plate = p → day1 t ≠ d ∧ day2 t ≠ d := by
  intro es p d cycles h t ht hp
  have hb := run_cycles_blocked cycles es h t ht
  constructor
  · intro hd
    exact hb ⟨hp, Or.inl hd⟩
  · intro hd
    exact hb ⟨hp, Or.inr hd⟩

/-- C1 witness: with ("A", 0) already marked, a cycle still delivers a day-1
ticket for plate A, and that delivered ticket touches neither marked day. -/
theorem issued_day_marker_blocks_forever_witness :
    day1 dayT ≠ 0 ∧ day2 dayT ≠ 0 :=
  issued_day_marker_blocks_forever ⟨[], [("A", 0)]⟩ "A" 0
    [⟨dayReg, dayLog, fun _ => true⟩] (by decide) dayT (by decide) rfl

/-- C2 counterexample: with limit 656, the u16 product limit*100 wraps to 64,
and the 60 mph pair is flagged although its computed speed (6000 hundredths,
by the bit-exact f64 chain) is not greater than the limit times 100 (65600) —
refuting the claimed iff. -/
theorem speed_comparison_counterexample :
    (pair_ticket "A" ⟨5, 0, 656, 0⟩ ⟨5, 60, 656, 3600⟩).isSome = true ∧
    speed_100x (max 0 60 - min 0 60) (3600 - 0) ≤ 656 * 100 := by
  decide

/-- C2 amended: for a same-road consecutive pair with nonzero distance and
nonzero elapsed time, a candidate is produced iff the u16-saturated truncation
of the IEEE-754 double evaluation of distance/elapsed × 3600 × 100 strictly
exceeds the earlier camera's limit times 100 reduced mod 2^16 (u16
wrap-around); for limits up to 655 that comparison value is exactly
limit × 100, so a speed exactly at the limit is never flagged. -/
theorem speed_comparison_amended :
    ∀ (p : String) (s1 s2 : SightingDetails),
      s1.timestamp ≤ s2.timestamp →
      s1.road = s2.road →
      max s1.mile s2.mile - min s1.mile s2.mile ≠ 0 →
      s2.timestamp - s1.timestamp ≠ 0 →
      ((pair_ticket p s1 s2).isSome ↔
        s1.limit * 100 % 65536 <
          speed_100x (max s1.mile s2.mile - min s1.mile s2.mile)
            (s2.timestamp - s1.timestamp)) := by
  intro p s1 s2 _ hroad hdist hdelta
  unfold pair_ticket
  rw [if_neg (not_not_intro hroad)]
  rw [if_neg (by push_neg; exact ⟨hdist, hdelta⟩)]
  split_ifs with hlim
  · simp [hlim]
  · simp [hlim]

/-- C2 witness: the 60 mph pair at limit 60 instantiates the amended iff;
both sides evaluate to False, so no candidate. -/
theorem speed_comparison_amended_witness :
    ((pair_ticket "ABC123" ⟨5, 0, 60, 0⟩ ⟨5, 60, 60, 3600⟩).isSome ↔
      60 * 100 % 65536 <
        speed_100x (max 0 60 - min 0 60) (3600 - 0)) :=
  speed_comparison_amended "ABC123" ⟨5, 0, 60, 0⟩ ⟨5, 60, 60, 3600⟩
    (by decide) rfl (by decide) (by decide)

/-- The registry of the C3 counterexample: two road-1 cameras, limit 1, one
mile apart. -/
def truncReg : List (Nat × ClientType × ClientInfo) :=
  [(1, ClientType.Camera, ClientInfo.CameraInfo 1 0 1),
   (2, ClientType.Camera, ClientInfo.CameraInfo 1 1 1)]

/-- One mile in seven seconds. -/
def truncLog : List Sighting :=
  [⟨1, "B", 0⟩, ⟨2, "B", 7⟩]

/-- C3 counterexample: one mile in seven seconds has exact speed
360000/7 = 51428.57… hundredths of mph; the code stores the speed field 51428
while the rounding named by the claim gives 51429. The second pair shows the
amendment cannot stop at exact truncation either: at 11 miles in 360000 s the
exact value is the integer 11, but the f64 chain lands just below it and the
cast stores 10. -/
theorem speed_rounding_counterexample :
    check_traffic_log truncReg truncLog = [⟨"B", 1, 0, 0, 1, 7, 51428⟩] ∧
    specRound ((max 0 1 - min 0 1) * 360000) (7 - 0) = 51429 ∧
    (51428 : Nat) ≠ 51429 ∧
    speed_100x 11 360000 = 10 ∧
    11 * 360000 / 360000 = 11 := by
  decide

/-- C3 amended: every produced ticket's speed field is the IEEE-754
double-precision evaluation of |mile2−mile1| / (ts2−ts1) × 3600 × 100
truncated toward zero and saturated at 65535 by the float-to-u16 cast — not
the claimed rounding, and not the exact truncation either (the f64 chain lands
below 8752 of the reachable integer speed values). -/
theorem speed_field_truncated :
    ∀ (reg : List (Nat × ClientType × ClientInfo)) (log : List Sighting),
      ∀ t ∈ check_traffic_log reg log,
        t.speed = speed_100x (max t.mile1 t.mile2 - min t.mile1 t.mile2)
          (t.timestamp2 - t.timestamp1) := by
  intro reg log t ht
  obtain ⟨s1, s2, _, hpt⟩ := mem_check_traffic_log ht
  obtain ⟨_, _, _, _, hteq⟩ := pair_ticket_inv hpt
  rw [hteq]

/-- C3 witness: the f64 speed formula evaluated on a delivered demo ticket. -/
theorem speed_field_truncated_witness :
    demoT1.speed = speed_100x (max demoT1.mile1 demoT1.mile2 -
      min demoT1.mile1 demoT1.mile2) (demoT1.timestamp2 - demoT1.timestamp1) :=
  speed_field_truncated demoReg demoLog demoT1 (by decide)

/-- C4: a Plate frame whose plate bytes are not valid UTF-8 reaches
String::from_utf8(..).expect(..), which panics the session handler instead of
producing an Error message; by contrast, a clean end at the tag boundary closes
silently, an unknown tag closes with an Error frame, and a payload truncated
mid-read also closes silently (UnexpectedEof is not InvalidData, so no Error
frame is written for truncation either, contrary to the claim). -/
theorem malformed_frame_handling :
    read_message [0x20, 1, 0xFF, 0, 0, 0, 0] = ReadOutcome.panicked ∧
    session_step [0x20, 1, 0xFF, 0, 0, 0, 0] = SessionSignal.panicked ∧
    session_step [] = SessionSignal.closedSilently ∧
    session_step [0x99] = SessionSignal.closedWithError ∧
    session_step [0x20, 1] = SessionSignal.closedSilently := by
  decide

/-- C5: a second identification message on an already-identified connection
produces exactly the Error frame, an Err result (the read loop then breaks and
the connection closes), and a completely unchanged shared state — the registry
still holds the first role and its data. -/
theorem second_identification_rejected :
    ∀ (fs : FlockState) (cid : Nat) (ct : ClientType) (ci : ClientInfo)
      (m : InboundMessage),
      regLookup fs.client_registry cid = some (ct, ci) →
      ct ≠ ClientType.Unknown →
      ((∃ road mile limit, m = InboundMessage.IAmCamera road mile limit) ∨
       (∃ roads, m = InboundMessage.IAmDispatcher roads)) →
      handle_message fs cid m =
        some ⟨fs, [OutMsg.errorMsg "Client already identified"], false, none⟩ := by
  intro fs cid ct ci m h1 h2 h3
  rcases h3 with ⟨road, mile, limit, rfl⟩ | ⟨roads, rfl⟩ <;> cases ct <;>
    simp_all [handle_message]

/-- The state of the C5 witness: connection 3 already identified as a camera. -/
def idFs : FlockState :=
  ⟨[(3, ClientType.Camera, ClientInfo.CameraInfo 1 2 3)], []⟩

/-- C5 witness: a camera that then sends IAmDispatcher gets the Error and the
state is untouched. -/
theorem second_identification_rejected_witness :
    handle_message idFs 3 (InboundMessage.IAmDispatcher [4]) =
      some ⟨idFs, [OutMsg.errorMsg "Client already identified"], false, none⟩ :=
  second_identification_rejected idFs 3 ClientType.Camera
    (ClientInfo.CameraInfo 1 2 3) (InboundMessage.IAmDispatcher [4])
    (by decide) (by decide) (Or.inr ⟨[4], rfl⟩)

/-- C6 amended: a candidate whose road no registered dispatcher covers, or
whose write fails, leaves the issued-ticket set and the day-marker set
untouched and delivers nothing; a candidate that is not yet issued, not
day-blocked, and for which a dispatcher is found and the write succeeds, is
delivered and committed; and across any run of cycles no ticket value is ever
delivered twice. (The claim's unconditional exactly-once delivery after a
dispatcher becomes available fails: see the counterexample, where the retried
candidate is permanently blocked by a day marker set in the meantime.) -/
theorem pending_candidate_retry :
    ∀ (reg : List (Nat × ClientType × ClientInfo)) (w : Ticket → Bool)
      (es : EngineState) (t : Ticket),
      (has_dispatcher reg t.road = false → process_candidate reg w es t = (es, [])) ∧
      (w t = false → process_candidate reg w es t = (es, [])) ∧
      (t ∉ es.tickets → day_blocked es t = false → has_dispatcher reg t.road = true →
        w t = true → process_candidate reg w es t = (deliver_mark es t, [t])) ∧
      (∀ cycles : List CycleInput, ((run_cycles cycles es).2).Nodup) := by
  intro reg w es t
  refine ⟨?_, ?_, ?_, ?_⟩
  · intro h
    unfold process_candidate
    split_ifs <;> simp_all
  · intro h
    unfold process_candidate
    split_ifs <;> simp_all
  · intro h1 h2 h3 h4
    unfold process_candidate
    simp [h1, h2, h3, h4]
  · intro cycles
    exact (run_cycles_nodup cycles es).1

/-- C6 witness: an unissued, unblocked candidate with a covering dispatcher and
a successful write is delivered and committed. -/
theorem pending_candidate_retry_witness :
    process_candidate dayReg (fun _ => true) ⟨[], []⟩ dayT =
      (deliver_mark ⟨[], []⟩ dayT, [dayT]) :=
  (pending_candidate_retry dayReg (fun _ => true) ⟨[], []⟩ dayT).2.2.1
    (by decide) (by decide) (by decide) rfl

/-- C6 counterexample: the road-1 candidate is pending in cycle 1 (no road-1
dispatcher yet); meanwhile the road-2 ticket of the same plate and day is
delivered and marks the day. In cycle 2 the road-1 candidate is recomputed,
a qualifying dispatcher is registered and every write succeeds, yet the whole
run delivers only the road-2 ticket — the retried candidate is never
delivered, refuting exactly-once delivery. -/
theorem pending_candidate_counterexample :
    (run_cycles [⟨demoReg, demoLog, fun _ => true⟩, ⟨demoReg2, demoLog, fun _ => true⟩]
      ⟨[], []⟩).2 = [demoT2] ∧
    demoT1 ∈ check_traffic_log demoReg demoLog ∧
    demoT1 ∈ check_traffic_log demoReg2 demoLog ∧
    has_dispatcher demoReg demoT1.road = false ∧
    has_dispatcher demoReg2 demoT1.road = true ∧
    demoT1 ≠ demoT2 := by
  decide

/-- C7: on disconnect, the registry entry is removed when the final role is
Dispatcher or Unidentified and the whole state is untouched when it is Camera;
lookups of every other identity and the sighting log never change. -/
theorem disconnect_cleanup_policy :
    ∀ (fs : FlockState) (cid : Nat),
      (∀ ci, regLookup fs.client_registry cid = some (ClientType.Dispatcher, ci) →
        regLookup (disconnect_cleanup fs cid).client_registry cid = none) ∧
      (∀ ci, regLookup fs.client_registry cid = some (ClientType.Unknown, ci) →
        regLookup (disconnect_cleanup fs cid).client_registry cid = none) ∧
      (∀ ci, regLookup fs.client_registry cid = some (ClientType.Camera, ci) →
        disconnect_cleanup fs cid = fs) ∧
      (∀ k, k ≠ cid →
        regLookup (disconnect_cleanup fs cid).client_registry k =
          regLookup fs.client_registry k) ∧
      (disconnect_cleanup fs cid).traffic_log = fs.traffic_log := by
  intro fs cid
  refine ⟨?_, ?_, ?_, ?_, ?_⟩
  · intro ci h
    simp [disconnect_cleanup, h, regLookup_regRemove_self]
  · intro ci h
    simp [disconnect_cleanup, h, regLookup_regRemove_self]
  · intro ci h
    simp [disconnect_cleanup, h]
  · intro k hk
    rcases hreg : regLookup fs.client_registry cid with _ | ⟨ct, ci⟩
    · simp [disconnect_cleanup, hreg, regLookup_regRemove_ne hk]
    · cases ct <;> simp [disconnect_cleanup, hreg, regLookup_regRemove_ne hk]
  · rcases hreg : regLookup fs.client_registry cid with _ | ⟨ct, ci⟩
    · simp [disconnect_cleanup, hreg]
    · cases ct <;> simp [disconnect_cleanup, hreg]

/-- The state of the C7 witness: a dispatcher entry for connection 1. -/
def discFs : FlockState :=
  ⟨[(1, ClientType.Dispatcher, ClientInfo.DispatcherInfo [4])], []⟩

/-- C7 witness: the dispatcher entry is gone after cleanup. -/
theorem disconnect_cleanup_policy_witness :
    regLookup (disconnect_cleanup discFs 1).client_registry 1 = none :=
  (disconnect_cleanup_policy discFs 1).1 (ClientInfo.DispatcherInfo [4]) (by decide)

/-- C8 counterexample: the emitter body discards the write result
(`let _ = write`) and the loop has no exit, so even when every write fails the
second iteration still attempts a write — a write failure does not terminate
the emitter, refuting the claim. -/
theorem heartbeat_failure_counterexample :
    (fun _ : Nat => false) 0 = false ∧
    heartbeat_attempts (fun _ => false) 2 = 2 ∧
    1 < heartbeat_attempts (fun _ => false) 2 := by
  decide

/-- C8 amended: WantHeartbeat with interval 0 spawns no emitter, and with
nonzero interval n spawns one with interval n — in both cases with unchanged
state, no output, and an Ok result; the spawned emitter then attempts one
heartbeat write per period forever, regardless of write outcomes (it is
terminated neither by write failure nor by connection close; real-time pacing
is abstracted to the iteration count). -/
theorem heartbeat_spawn_amended :
    ∀ (fs : FlockState) (cid : Nat) (interval : Nat) (w : Nat → Bool) (n : Nat),
      handle_message fs cid (InboundMessage.WantHeartbeat interval) =
        some ⟨fs, [], true, if interval = 0 then none else some interval⟩ ∧
      heartbeat_attempts w n = n := by
  intro fs cid interval w n
  constructor
  · by_cases h : interval = 0 <;> simp [handle_message, h]
  · induction n with
    | zero => rfl
    | succ m ih => simp [heartbeat_attempts, ih]

/-- C9: every ticket produced by one scan comes from a consecutive pair of its
plate's timestamp-sorted camera-resolved sightings whose cameras are on the
same road, and a pair of sightings on different roads never produces a
candidate, however adjacent. -/
theorem candidates_adjacent_same_road :
    (∀ (reg : List (Nat × ClientType × ClientInfo)) (log : List Sighting)
      (t : Ticket), t ∈ check_traffic_log reg log →
      ∃ s1 s2, (s1, s2) ∈ consecPairs (sortByTimestamp (detailsFor reg log t.plate)) ∧
        s1.road = s2.road ∧ pair_ticket t.plate s1 s2 = some t) ∧
    (∀ (p : String) (s1 s2 : SightingDetails), s1.road ≠ s2.road →
      pair_ticket p s1 s2 = none) := by
  constructor
  · intro reg log t ht
    obtain ⟨s1, s2, hmem, hpt⟩ := mem_check_traffic_log ht
    exact ⟨s1, s2, hmem, (pair_ticket_inv hpt).1, hpt⟩
  · intro p s1 s2 h
    exact pair_ticket_ne_road h

/-- C9 witness: the demo road-1 ticket has adjacent same-road provenance, and
the adjacent cross-road pair of the same log yields no candidate. -/
theorem candidates_adjacent_same_road_witness :
    (∃ s1 s2, (s1, s2) ∈ consecPairs (sortByTimestamp (detailsFor demoReg demoLog demoT1.plate)) ∧
      s1.road = s2.road ∧ pair_ticket demoT1.plate s1 s2 = some demoT1) ∧
    pair_ticket "A" ⟨1, 10, 10, 1⟩ ⟨2, 0, 10, 2⟩ = none :=
  ⟨candidates_adjacent_same_road.1 demoReg demoLog demoT1 (by decide),
   candidates_adjacent_same_road.2 "A" ⟨1, 10, 10, 1⟩ ⟨2, 0, 10, 2⟩ (by decide)⟩

/-- C10: the scan is total on the model, and its two partiality hazards are
absent: after sorting, every consecutive pair has nondecreasing timestamps, so
the u32 subtraction timestamp2 − timestamp1 cannot underflow; and every
produced ticket comes from a pair with strictly increasing timestamps and
distinct miles, so the speed division is only performed with a nonzero
divisor. -/
theorem check_traffic_log_no_underflow :
    ∀ (reg : List (Nat × ClientType × ClientInfo)) (log : List Sighting) (p : String),
      (∀ pr ∈ consecPairs (sortByTimestamp (detailsFor reg log p)),
        pr.1.timestamp ≤ pr.2.timestamp) ∧
      (∀ t ∈ check_traffic_log reg log,
        t.timestamp1 < t.timestamp2 ∧ t.mile1 ≠ t.mile2) := by
  intro reg log p
  constructor
  · exact sorted_pairs_le _
  · intro t ht
    obtain ⟨s1, s2, hmem, hpt⟩ := mem_check_traffic_log ht
    obtain ⟨_, hdist, hdelta, _, hteq⟩ := pair_ticket_inv hpt
    have hle : s1.timestamp ≤ s2.timestamp :=
      sorted_pairs_le _ (s1, s2) hmem
    rw [hteq]
    refine ⟨?_, ?_⟩
    · show s1.timestamp < s2.timestamp
      omega
    · show s1.mile ≠ s2.mile
      intro he
      apply hdist
      rw [he]
      simp

/-- C10 witness: the first sorted pair of the demo log is nondecreasing and
the demo ticket has increasing timestamps and distinct miles. -/
theorem check_traffic_log_no_underflow_witness :
    (⟨1, 0, 10, 0⟩ : SightingDetails).timestamp ≤
      (⟨1, 10, 10, 1⟩ : SightingDetails).timestamp ∧
    (demoT1.timestamp1 < demoT1.timestamp2 ∧ demoT1.mile1 ≠ demoT1.mile2) :=
  ⟨(check_traffic_log_no_underflow demoReg demoLog "A").1
      (⟨1, 0, 10, 0⟩, ⟨1, 10, 10, 1⟩) (by decide),
   (check_traffic_log_no_underflow demoReg demoLog "A").2 demoT1 (by decide)⟩

end Flock
